import Mathlib

set_option maxRecDepth 8000

/-!
Shallow embedding of the photo-geolocation app's core: GPS normalization
(lib/gps), the upload validation pipeline (app/api/photos/route.ts POST),
vision-provider selection and the Ollama provider's path validation
(lib/ai/visionProvider), the delete / regenerate / comment handlers
(app/api/photos/[id]/route.ts and app/api/photos/[id]/comments/route.ts),
and the per-photo enrichment state machine driven by the fire-and-forget
completion writes.

JavaScript strings are modelled as `List Char`; JavaScript numbers as `ℚ`
(exact rational semantics of the arithmetic the code performs).
-/

/-- JavaScript string, modelled as a list of characters. -/
abbrev Str := List Char

/-- Whitespace characters trimmed by JavaScript `String.prototype.trim`
(the common ASCII subset suffices for this development). -/
def isWsChar (c : Char) : Bool := c == ' ' || c == '\t' || c == '\n' || c == '\r'

/-- JavaScript `String.prototype.trim`: drop whitespace from both ends. -/
def jsTrim (s : Str) : Str :=
  ((s.dropWhile isWsChar).reverse.dropWhile isWsChar).reverse

/-- JavaScript `String.prototype.toLowerCase` (character-wise, as used on
ASCII MIME types and file extensions in this code base). -/
def lowerChars (s : Str) : Str := s.map Char.toLower

/-- Whether `p` is a prefix of `s` (JavaScript `String.prototype.startsWith`). -/
def hasPrefixChars : Str → Str → Bool
  | [], _ => true
  | _ :: _, [] => false
  | a :: as, b :: bs => a == b && hasPrefixChars as bs

/-- Whether `p` is a suffix of `s` (JavaScript `String.prototype.endsWith`). -/
def hasSuffixChars (p s : Str) : Bool := hasPrefixChars p.reverse s.reverse

/-- Whether `p` occurs as a contiguous substring of the second argument
(JavaScript `String.prototype.includes`). -/
def hasSubstrChars (p : Str) : Str → Bool
  | [] => p.isEmpty
  | c :: rest => hasPrefixChars p (c :: rest) || hasSubstrChars p rest

/-! ## GPS normalizer (src/unnamed/part_003, `normalizeGps`) -/

/-- A value read from an EXIF GPS field: a bare number, an array of numbers,
or absent (`undefined` / `null`). -/
inductive GpsValue where
  | absent
  | num (q : ℚ)
  | arr (l : List ℚ)
deriving DecidableEq

/-- Embedding of `normalizeGps`: `null`/`undefined` map to `none`; a number
is returned unchanged; an array of length at least 3 yields
`value[0] + value[1]/60 + value[2]/3600`; any other array yields `none`. -/
def normalizeGps : GpsValue → Option ℚ
  | .absent => none
  | .num q => some q
  | .arr (d :: m :: s :: _) => some (d + m / 60 + s / 3600)
  | .arr _ => none

/-! ## Upload validation pipeline (src/app/api/photos/route.ts, POST) -/

/-- Embedding of `MAX_FILE_SIZE = 10 * 1024 * 1024`. -/
def MAX_FILE_SIZE : ℕ := 10 * 1024 * 1024

/-- Embedding of `ALLOWED_MIME_TYPES = ["image/jpeg", "image/jpg"]`. -/
def ALLOWED_MIME_TYPES : List Str := ["image/jpeg".toList, "image/jpg".toList]

/-- The EXIF fields the upload handler picks: `latitude`, `longitude`,
`GPSLatitude`, `GPSLongitude`. A parse that returns no EXIF at all is the
record with all four fields `absent` (optional chaining `exifData?.x`
collapses `undefined` data to `undefined` fields). -/
structure ExifData where
  latitude : GpsValue
  longitude : GpsValue
  GPSLatitude : GpsValue
  GPSLongitude : GpsValue

/-- JavaScript truthiness of a GPS field value: `undefined`/`null` are
falsy, the number 0 is falsy, every other number is truthy, and an array
(an object) is always truthy. -/
def jsTruthy : GpsValue → Bool
  | .absent => false
  | .num q => q != 0
  | .arr _ => true

/-- JavaScript `a || b` on GPS field values. -/
def jsOr (a b : GpsValue) : GpsValue := if jsTruthy a then a else b

/-- The upload handler's 400-class validation failures. `invalidMediaType`
carries the received content type and `payloadTooLarge` the computed size,
as both are embedded in the response message. -/
inductive UploadError where
  | invalidMediaType (received : Str)
  | payloadTooLarge (size : ℕ)
  | missingLocation

/-- Result of the upload validation pipeline, together with whether control
reached the EXIF-extraction stage (`exifr.parse` and the GPS field
selection), which in the source happens only after the type and size checks
both pass. -/
structure UploadOutcome where
  result : Except UploadError (ℚ × ℚ)
  exifParsed : Bool

/-- Embedding of the POST /api/photos validation pipeline: the content-type
check (case-insensitive membership in `ALLOWED_MIME_TYPES`), then the size
check (`file.size > MAX_FILE_SIZE`), then EXIF GPS selection
(`exifData?.latitude || exifData?.GPSLatitude`, likewise for longitude),
normalization, and the `null` check that signals a missing location. -/
def uploadPOST (contentType : Str) (size : ℕ) (exif : ExifData) : UploadOutcome :=
  if !(ALLOWED_MIME_TYPES.contains (lowerChars contentType)) then
    ⟨.error (.invalidMediaType contentType), false⟩
  else if size > MAX_FILE_SIZE then
    ⟨.error (.payloadTooLarge size), false⟩
  else
    match normalizeGps (jsOr exif.latitude exif.GPSLatitude),
          normalizeGps (jsOr exif.longitude exif.GPSLongitude) with
    | some la, some ln => ⟨.ok (la, ln), true⟩
    | some _, none => ⟨.error .missingLocation, true⟩
    | none, some _ => ⟨.error .missingLocation, true⟩
    | none, none => ⟨.error .missingLocation, true⟩

/-! ## Vision provider selection (src/unnamed/part_003, `getVisionProvider`) -/

/-- The two provider implementations: the deterministic mock and the
Ollama-backed remote model provider. -/
inductive ProviderKind where
  | mock
  | ollama
deriving DecidableEq

/-- Embedding of `getVisionProvider`: `process.env.VISION_PROVIDER || "mock"`
(absent or empty falls back to `"mock"`), then a switch recognizing exactly
`"mock"` and `"ollama"`, with every other value defaulting to the mock. -/
def getVisionProvider (envValue : Option Str) : ProviderKind :=
  let provider : Str :=
    match envValue with
    | none => "mock".toList
    | some s => if s.isEmpty then "mock".toList else s
  if provider == "mock".toList then .mock
  else if provider == "ollama".toList then .ollama
  else .mock

/-! ## Ollama provider path validation (src/unnamed/part_003,
`OllamaVisionProvider.describeImage`) -/

/-- The rejection reasons of the path checks guarding the file read. -/
inductive PathError where
  | notUploads
  | traversal
  | tooLong
  | badExtension
deriving DecidableEq

/-- The required storage-namespace prefix `"/uploads/"`. -/
def uploadsNamespace : Str := "/uploads/".toList

/-- Embedding of the validation prelude of `describeImage`: require the
`/uploads/` prefix, strip it, reject `..`, a backslash, or a leading slash
in the remainder, reject a remainder longer than 200 characters, and
require a `.jpg`/`.jpeg` extension (case-insensitive). Only on success
(`Except.ok rel`) does the source proceed to `readFile` and the network
call; every error is thrown before any byte of the file is read. -/
def validateImageRef (imageUrlOrPath : Str) : Except PathError Str :=
  if !(hasPrefixChars uploadsNamespace imageUrlOrPath) then .error .notUploads
  else
    let rel := imageUrlOrPath.drop uploadsNamespace.length
    if hasSubstrChars "..".toList rel || hasSubstrChars "\\".toList rel ||
        hasPrefixChars "/".toList rel then
      .error .traversal
    else if rel.length > 200 then .error .tooLong
    else if !(hasSuffixChars ".jpg".toList (lowerChars rel) ||
              hasSuffixChars ".jpeg".toList (lowerChars rel)) then
      .error .badExtension
    else .ok rel

/-! ## Durable store and the delete / regenerate / comment handlers -/

/-- The enrichment status enum (`AiStatus` in the schema). -/
inductive AiStatus where
  | pending
  | done
  | error
deriving DecidableEq

/-- A row of the `photos` table (the fields these handlers touch). -/
structure PhotoRec where
  id : Str
  ownerId : Str
  url : Str
  lat : ℚ
  lng : ℚ
  aiStatus : AiStatus
  aiDescription : Option Str
  aiError : Option Str

/-- A row of the `comments` table. -/
structure CommentRec where
  id : Str
  photoId : Str
  authorId : Str
  content : Str

/-- The shared durable state: photo rows, comment rows, and the set of
stored blobs (by url). -/
structure DbState where
  photos : List PhotoRec
  comments : List CommentRec
  blobs : List Str

/-- Embedding of `db.photo.findFirst({where: {id: photoId, ownerId: user.id}})`,
the ownership gate shared by DELETE and regenerate. -/
def findOwned (s : DbState) (callerId photoId : Str) : Option PhotoRec :=
  s.photos.find? (fun p => p.id == photoId && p.ownerId == callerId)

/-- Outcome of the DELETE handler. -/
inductive DeleteResult where
  | notFound
  | deleted
deriving DecidableEq

/-- Embedding of DELETE /api/photos/[id]: find the photo by id and owner;
if none, respond 404 and change nothing; otherwise best-effort delete the
blob (a missing blob does not block), delete the row, and cascade-delete
its comments. -/
def photoDELETE (s : DbState) (callerId photoId : Str) : DeleteResult × DbState :=
  match findOwned s callerId photoId with
  | none => (.notFound, s)
  | some photo =>
      let blobsAfter := s.blobs.filter (fun b => b != photo.url)
      let photosAfter := s.photos.filter (fun p => p.id != photoId)
      let commentsAfter := s.comments.filter (fun c => c.photoId != photoId)
      (.deleted, ⟨photosAfter, commentsAfter, blobsAfter⟩)

/-- Response of the regenerate handler: 404, or 200 carrying the reported
`aiStatus`. -/
inductive RegenResponse where
  | notFound
  | started (aiStatus : AiStatus)
deriving DecidableEq

/-- The fire-and-forget enrichment task the regenerate handler dispatches:
its completion write happens strictly after the handler returns and is not
part of the handler's own state update. -/
structure EnrichDispatch where
  photoId : Str
  url : Str

/-- The reset write of the regenerate handler:
`{aiStatus: "PENDING", aiDescription: null, aiError: null}`. -/
def resetFields (p : PhotoRec) : PhotoRec :=
  { p with aiStatus := .pending, aiDescription := none, aiError := none }

/-- Embedding of POST /api/photos/[id]/comments (regenerate-description
route): the same ownership gate as DELETE with 404 on failure; on success
the reset write is applied to the row, the enrichment task is dispatched
(returned here as data, not yet run), and the response reports PENDING. -/
def regeneratePOST (s : DbState) (callerId photoId : Str) :
    RegenResponse × DbState × Option EnrichDispatch :=
  match findOwned s callerId photoId with
  | none => (.notFound, s, none)
  | some photo =>
      let photosAfter :=
        s.photos.map (fun p => if p.id == photoId then resetFields p else p)
      (.started .pending, { s with photos := photosAfter }, some ⟨photoId, photo.url⟩)

/-- Outcome of the add-comment handler. -/
inductive CommentResult where
  | photoNotFound
  | invalidComment
  | created (content : Str)

/-- Embedding of POST /api/photos/[id]/comments (add comment): verify the
photo exists (any authenticated caller), reject a falsy (empty) content
string, trim, reject a trimmed length of 0 or above 500, and otherwise
store the trimmed content as a new comment row. -/
def commentsPOST (s : DbState) (callerId photoId content newId : Str) :
    CommentResult × DbState :=
  if (s.photos.find? (fun p => p.id == photoId)).isSome then
    if content.isEmpty then (.invalidComment, s)
    else
      let trimmedContent := jsTrim content
      if trimmedContent.length == 0 then (.invalidComment, s)
      else if trimmedContent.length > 500 then (.invalidComment, s)
      else (.created trimmedContent,
            { s with comments := s.comments ++ [⟨newId, photoId, callerId, trimmedContent⟩] })
  else (.photoNotFound, s)

/-! ## Enrichment state machine over the ai fields of one photo row

The four persisted writes that touch `aiStatus`/`aiDescription`/`aiError`:
creation (PENDING, both absent), the regenerate reset, and the two
completion writes of `generateAIDescription` and of the regenerate
handler's dispatched task. The success write sets `aiStatus: "DONE"`,
`aiDescription: description`, `aiError: null`; the failure write sets
`aiStatus: "ERROR"`, `aiError: message` and does NOT touch
`aiDescription` (both error branches omit it). `inFlight` counts
dispatched enrichment tasks whose completion write has not yet landed;
upload itself dispatches one. -/

/-- The ai fields of one photo row. -/
structure PhotoAi where
  aiStatus : AiStatus
  aiDescription : Option Str
  aiError : Option Str
deriving DecidableEq

/-- The row as created by upload: `aiStatus: "PENDING"`, description and
error at their null column defaults. -/
def initialAi : PhotoAi := ⟨.pending, none, none⟩

/-- The regenerate reset write. -/
def resetAi (_ : PhotoAi) : PhotoAi := ⟨.pending, none, none⟩

/-- The success completion write: DONE, the description, and `aiError: null`. -/
def successUpdate (d : Str) (_ : PhotoAi) : PhotoAi := ⟨.done, some d, none⟩

/-- The failure completion write: ERROR and the message; `aiDescription`
is not among the updated fields, so it keeps its previous value. -/
def errorUpdate (e : Str) (p : PhotoAi) : PhotoAi :=
  ⟨.error, p.aiDescription, some e⟩

/-- A photo's ai fields together with the number of in-flight enrichment
tasks (dispatched, completion write not yet landed). -/
structure EnrichState where
  ai : PhotoAi
  inFlight : ℕ
deriving DecidableEq

/-- One persisted update: a regenerate (reset plus a new dispatch), or the
completion write of one in-flight task (success or failure). Completions of
distinct dispatches may land in any order; nothing serializes them. -/
inductive EnrichStep : EnrichState → EnrichState → Prop
  | regenerate (p : PhotoAi) (n : ℕ) :
      EnrichStep ⟨p, n⟩ ⟨resetAi p, n + 1⟩
  | success (p : PhotoAi) (n : ℕ) (d : Str) :
      EnrichStep ⟨p, n + 1⟩ ⟨successUpdate d p, n⟩
  | failure (p : PhotoAi) (n : ℕ) (e : Str) :
      EnrichStep ⟨p, n + 1⟩ ⟨errorUpdate e p, n⟩

/-- States reachable from upload (which dispatches one enrichment) under
any sequence of regenerate and completion updates. -/
def Reachable : EnrichState → Prop :=
  Relation.ReflTransGen EnrichStep ⟨initialAi, 1⟩

/-- The sequential (non-overlapping) restriction: a regenerate is issued
only when no enrichment is in flight, so at most one task is ever
outstanding. -/
inductive SeqEnrichStep : EnrichState → EnrichState → Prop
  | regenerate (p : PhotoAi) :
      SeqEnrichStep ⟨p, 0⟩ ⟨resetAi p, 1⟩
  | success (p : PhotoAi) (n : ℕ) (d : Str) :
      SeqEnrichStep ⟨p, n + 1⟩ ⟨successUpdate d p, n⟩
  | failure (p : PhotoAi) (n : ℕ) (e : Str) :
      SeqEnrichStep ⟨p, n + 1⟩ ⟨errorUpdate e p, n⟩

/-- States reachable when enrichment attempts never overlap. -/
def SeqReachable : EnrichState → Prop :=
  Relation.ReflTransGen SeqEnrichStep ⟨initialAi, 1⟩

/-- The spec's invariant on the ai fields: at most one of description and
error is set, a description only in DONE, an error only in ERROR. -/
def MutexInv (p : PhotoAi) : Prop :=
  (p.aiDescription = none ∨ p.aiError = none) ∧
  (p.aiDescription ≠ none → p.aiStatus = .done) ∧
  (p.aiError ≠ none → p.aiStatus = .error)

/-! ## Claim C2 -/

/-- C2 counterexample: the claim says any array of wrong arity (not exactly
3 elements) yields the absent sentinel, but `normalizeGps` accepts every
array of length at least 3 and uses its first three entries, so the
4-element array `[1, 2, 3, 4]` yields `1 + 2/60 + 3/3600`, not `none`. -/
theorem c2_wrong_arity_counterexample :
    normalizeGps (GpsValue.arr [1, 2, 3, 4]) = some (1 + 2 / 60 + 3 / 3600) ∧
    normalizeGps (GpsValue.arr [1, 2, 3, 4]) ≠ none := by
  constructor
  · rfl
  · simp [normalizeGps]

/-- C2 (amended): `normalizeGps` maps absent input to `none`, a bare number
to itself, an array with at least 3 elements to `d + m/60 + s/3600` taken
from its first three entries (extra entries are ignored, not rejected), and
an array with fewer than 3 elements to `none`. -/
theorem c2_normalizeGps_contract :
    (normalizeGps GpsValue.absent = none) ∧
    (∀ q : ℚ, normalizeGps (GpsValue.num q) = some q) ∧
    (∀ (d m s : ℚ) (rest : List ℚ),
      normalizeGps (GpsValue.arr (d :: m :: s :: rest)) = some (d + m / 60 + s / 3600)) ∧
    (∀ l : List ℚ, l.length < 3 → normalizeGps (GpsValue.arr l) = none) := by
  refine ⟨rfl, fun q => rfl, fun d m s rest => rfl, fun l hl => ?_⟩
  match l with
  | [] => rfl
  | [_] => rfl
  | [_, _] => rfl
  | _ :: _ :: _ :: _ =>
    simp only [List.length_cons] at hl
    omega

/-- C2 witness: the triple `[30, 30, 36]` normalizes to `30 + 30/60 + 36/3600`
and the 1-element array `[30]` is rejected. -/
theorem c2_normalizeGps_contract_witness :
    normalizeGps (GpsValue.arr [30, 30, 36]) = some (30 + 30 / 60 + 36 / 3600) ∧
    normalizeGps (GpsValue.arr [30]) = none :=
  ⟨c2_normalizeGps_contract.2.2.1 30 30 36 [],
   c2_normalizeGps_contract.2.2.2 [30] (by decide)⟩

/-! ## Claim C8 -/

/-- C8 counterexample: the claim says the configuration value `remote`
selects the live inference backend, but `getVisionProvider` recognizes only
`mock` and `ollama`; the literal value `remote` falls through the switch's
default and yields the mock provider. -/
theorem c8_remote_counterexample :
    getVisionProvider (some "remote".toList) = ProviderKind.mock := by decide

/-- C8 (amended): provider selection recognizes exactly the values `mock`
and `ollama`; `mock` yields the deterministic offline provider, `ollama`
yields the Ollama-backed live inference backend, and every other value
(including `remote`) as well as an absent value yields the mock provider. -/
theorem c8_provider_selection (s : Str) :
    (getVisionProvider none = ProviderKind.mock) ∧
    (getVisionProvider (some "mock".toList) = ProviderKind.mock) ∧
    (getVisionProvider (some "ollama".toList) = ProviderKind.ollama) ∧
    (s ≠ "mock".toList → s ≠ "ollama".toList →
      getVisionProvider (some s) = ProviderKind.mock) := by
  refine ⟨by decide, by decide, by decide, fun h1 h2 => ?_⟩
  by_cases he : s.isEmpty
  · simp [getVisionProvider, he]
  · simp only [getVisionProvider, he, if_false, Bool.false_eq_true]
    split
    · rfl
    · split
      · next hmock hollama => exact absurd (by simpa using hollama) h2
      · rfl

/-- C8 witness: an unrecognized configuration value defaults to the mock
provider. -/
theorem c8_provider_selection_witness :
    getVisionProvider (some "garbage".toList) = ProviderKind.mock :=
  (c8_provider_selection "garbage".toList).2.2.2 (by decide) (by decide)

/-! ## Claim C9 -/

/-- C9: the Ollama provider reads file bytes only for a confined reference:
whenever the path validation succeeds (and only then does the source reach
`readFile` and the network call), the reference starts with `/uploads/`,
and the remainder after stripping that prefix contains no `..`, contains no
backslash, does not start with a slash, and ends (case-insensitively) in
`.jpg` or `.jpeg`. Contrapositively, every reference violating one of these
conditions is rejected before any file read or network call. -/
theorem c9_path_confinement (ref : Str)
    (h : (validateImageRef ref).isOk = true) :
    hasPrefixChars uploadsNamespace ref = true ∧
    hasSubstrChars "..".toList (ref.drop uploadsNamespace.length) = false ∧
    hasSubstrChars "\\".toList (ref.drop uploadsNamespace.length) = false ∧
    hasPrefixChars "/".toList (ref.drop uploadsNamespace.length) = false ∧
    (hasSuffixChars ".jpg".toList (lowerChars (ref.drop uploadsNamespace.length)) = true ∨
     hasSuffixChars ".jpeg".toList (lowerChars (ref.drop uploadsNamespace.length)) = true) := by
  simp only [validateImageRef] at h
  split at h
  next hpre => exact absurd h (by decide)
  next hpre =>
    have hpre' : hasPrefixChars uploadsNamespace ref = true := by
      simpa using hpre
    split at h
    next hdirty => exact absurd h (by decide)
    next hdirty =>
      split at h
      next hlong => exact absurd h (by decide)
      next hlong =>
        split at h
        next hext => exact absurd h (by decide)
        next hext =>
          refine ⟨hpre', ?_, ?_, ?_, ?_⟩
          · simp only [Bool.or_eq_true, not_or, Bool.not_eq_true] at hdirty
            exact hdirty.1.1
          · simp only [Bool.or_eq_true, not_or, Bool.not_eq_true] at hdirty
            exact hdirty.1.2
          · simp only [Bool.or_eq_true, not_or, Bool.not_eq_true] at hdirty
            exact hdirty.2
          · by_cases hj : hasSuffixChars ".jpg".toList
                (lowerChars (ref.drop uploadsNamespace.length)) = true
            · exact Or.inl hj
            · by_cases hp : hasSuffixChars ".jpeg".toList
                  (lowerChars (ref.drop uploadsNamespace.length)) = true
              · exact Or.inr hp
              · exact absurd
                  (by rw [Bool.eq_false_iff.mpr hj, Bool.eq_false_iff.mpr hp]; rfl) hext

/-- C9 witness: a well-formed reference passes validation, hence satisfies
every confinement condition. -/
theorem c9_path_confinement_witness :
    hasPrefixChars uploadsNamespace "/uploads/photo.jpg".toList = true ∧
    hasSubstrChars "..".toList ("/uploads/photo.jpg".toList.drop uploadsNamespace.length) = false ∧
    hasSubstrChars "\\".toList ("/uploads/photo.jpg".toList.drop uploadsNamespace.length) = false ∧
    hasPrefixChars "/".toList ("/uploads/photo.jpg".toList.drop uploadsNamespace.length) = false ∧
    (hasSuffixChars ".jpg".toList
      (lowerChars ("/uploads/photo.jpg".toList.drop uploadsNamespace.length)) = true ∨
     hasSuffixChars ".jpeg".toList
      (lowerChars ("/uploads/photo.jpg".toList.drop uploadsNamespace.length)) = true) :=
  c9_path_confinement "/uploads/photo.jpg".toList (by decide)

/-! ## Claim C3 -/

/-- C3: upload validation short-circuits in the order type, size, EXIF/GPS.
A content type outside the allowed JPEG variants (case-insensitively) fails
with `invalidMediaType` carrying the received type, for every size and
every EXIF content, with the EXIF stage never reached; a compliant type
with an oversize payload fails with `payloadTooLarge` with the EXIF stage
never reached; only when both earlier checks pass is EXIF extraction
performed. -/
theorem c3_validation_order (ct : Str) (size : ℕ) (exif : ExifData) :
    (ALLOWED_MIME_TYPES.contains (lowerChars ct) = false →
      uploadPOST ct size exif = ⟨.error (.invalidMediaType ct), false⟩) ∧
    (ALLOWED_MIME_TYPES.contains (lowerChars ct) = true → size > MAX_FILE_SIZE →
      uploadPOST ct size exif = ⟨.error (.payloadTooLarge size), false⟩) ∧
    (ALLOWED_MIME_TYPES.contains (lowerChars ct) = true → size ≤ MAX_FILE_SIZE →
      (uploadPOST ct size exif).exifParsed = true) := by
  refine ⟨fun hct => ?_, fun hct hsz => ?_, fun hct hsz => ?_⟩
  · have hm : lowerChars ct ∉ ALLOWED_MIME_TYPES := by simpa using hct
    simp [uploadPOST, hm]
  · have hm : lowerChars ct ∈ ALLOWED_MIME_TYPES := by simpa using hct
    simp [uploadPOST, hm, hsz]
  · have hm : lowerChars ct ∈ ALLOWED_MIME_TYPES := by simpa using hct
    have hns : ¬ size > MAX_FILE_SIZE := by omega
    simp only [uploadPOST, List.elem_eq_mem, hm, Bool.not_true, decide_eq_true_eq,
      Bool.false_eq_true, if_false, hns, if_true]
    cases normalizeGps (jsOr exif.latitude exif.GPSLatitude) <;>
      cases normalizeGps (jsOr exif.longitude exif.GPSLongitude) <;> rfl

/-- C3 witness: a `text/plain` upload that is also oversized and has no
EXIF data fails with `invalidMediaType` (the type check wins and the EXIF
stage is never reached), while a JPEG upload in upper case passes the type
check and reaches the EXIF stage. -/
theorem c3_validation_order_witness :
    uploadPOST "text/plain".toList (20 * 1024 * 1024)
        ⟨GpsValue.absent, GpsValue.absent, GpsValue.absent, GpsValue.absent⟩ =
      ⟨.error (.invalidMediaType "text/plain".toList), false⟩ ∧
    (uploadPOST "IMAGE/JPEG".toList 1000
        ⟨GpsValue.absent, GpsValue.absent, GpsValue.absent, GpsValue.absent⟩).exifParsed = true :=
  ⟨(c3_validation_order "text/plain".toList (20 * 1024 * 1024) _).1 (by decide),
   (c3_validation_order "IMAGE/JPEG".toList 1000 _).2.2 (by decide) (by decide)⟩

/-! ## Claim C6 -/

/-- C6: with a compliant content type, any declared size strictly above
10 MiB fails with `payloadTooLarge` carrying the computed size, for every
EXIF content including valid GPS data; at exactly 10 MiB the size check
passes and the outcome is never `payloadTooLarge`. -/
theorem c6_size_ceiling (ct : Str) (size : ℕ) (exif : ExifData) :
    (ALLOWED_MIME_TYPES.contains (lowerChars ct) = true → size > 10 * 1024 * 1024 →
      uploadPOST ct size exif = ⟨.error (.payloadTooLarge size), false⟩) ∧
    (ALLOWED_MIME_TYPES.contains (lowerChars ct) = true →
      ∀ n : ℕ, (uploadPOST ct (10 * 1024 * 1024) exif).result ≠
        .error (.payloadTooLarge n)) := by
  constructor
  · intro hct hsz
    have hm : lowerChars ct ∈ ALLOWED_MIME_TYPES := by simpa using hct
    have hsz' : size > MAX_FILE_SIZE := hsz
    simp [uploadPOST, hm, hsz']
  · intro hct n
    have hm : lowerChars ct ∈ ALLOWED_MIME_TYPES := by simpa using hct
    have hns : ¬ (10 * 1024 * 1024 : ℕ) > MAX_FILE_SIZE := by
      simp [MAX_FILE_SIZE]
    simp only [uploadPOST, List.elem_eq_mem, hm, Bool.not_true, decide_eq_true_eq,
      Bool.false_eq_true, if_false, hns, if_true]
    cases normalizeGps (jsOr exif.latitude exif.GPSLatitude) <;>
      cases normalizeGps (jsOr exif.longitude exif.GPSLongitude) <;> simp

/-- C6 witness: an 11 MiB JPEG with valid EXIF GPS (the Eiffel Tower
coordinates) fails with `payloadTooLarge` carrying the size, while at
exactly 10 MiB the outcome is never `payloadTooLarge`. -/
theorem c6_size_ceiling_witness :
    uploadPOST "image/jpeg".toList (11 * 1024 * 1024)
        ⟨GpsValue.num (448584 / 10000), GpsValue.num (22945 / 10000),
         GpsValue.absent, GpsValue.absent⟩ =
      ⟨.error (.payloadTooLarge (11 * 1024 * 1024)), false⟩ ∧
    ∀ n : ℕ, (uploadPOST "image/jpeg".toList (10 * 1024 * 1024)
        ⟨GpsValue.num (448584 / 10000), GpsValue.num (22945 / 10000),
         GpsValue.absent, GpsValue.absent⟩).result ≠ .error (.payloadTooLarge n) :=
  ⟨(c6_size_ceiling "image/jpeg".toList (11 * 1024 * 1024) _).1 (by decide) (by decide),
   (c6_size_ceiling "image/jpeg".toList (10 * 1024 * 1024) _).2 (by decide)⟩

/-! ## Claim C10 -/

/-- C10: the GPS candidate selection `exifData?.latitude || exifData?.GPSLatitude`
uses JavaScript truthiness, and the number 0 is falsy; so when the decimal
latitude is exactly 0 and the raw `GPSLatitude` field is absent, the
candidate collapses to absent, normalization yields `null`, and the upload
fails with `missingLocation` regardless of the longitude data. -/
theorem c10_zero_latitude (ct : Str) (size : ℕ) (exif : ExifData)
    (hct : ALLOWED_MIME_TYPES.contains (lowerChars ct) = true)
    (hsize : size ≤ MAX_FILE_SIZE)
    (hlat : exif.latitude = GpsValue.num 0)
    (hraw : exif.GPSLatitude = GpsValue.absent) :
    (uploadPOST ct size exif).result = .error UploadError.missingLocation := by
  have hm : lowerChars ct ∈ ALLOWED_MIME_TYPES := by simpa using hct
  have hns : ¬ size > MAX_FILE_SIZE := by omega
  have hnone : normalizeGps (jsOr exif.latitude exif.GPSLatitude) = none := by
    rw [hlat, hraw]; rfl
  simp only [uploadPOST, List.elem_eq_mem, hm, Bool.not_true, decide_eq_true_eq,
    Bool.false_eq_true, if_false, hns, if_true, hnone]
  cases normalizeGps (jsOr exif.longitude exif.GPSLongitude) <;> rfl

/-- C10 witness: an in-budget JPEG whose EXIF has decimal latitude 0, no
raw latitude field, and a perfectly valid longitude is rejected with
`missingLocation`. -/
theorem c10_zero_latitude_witness :
    (uploadPOST "image/jpeg".toList 1000
        ⟨GpsValue.num 0, GpsValue.num (22945 / 10000),
         GpsValue.absent, GpsValue.absent⟩).result =
      .error UploadError.missingLocation :=
  c10_zero_latitude "image/jpeg".toList 1000 _ (by decide) (by decide) rfl rfl

/-! ## Claim C7 -/

/-- C7: on an existing photo, an add-comment request is rejected with
`invalidComment` exactly when the trimmed content length is 0 or exceeds
500 (the state is unchanged), and a trimmed length between 1 and 500
creates a comment row holding the trimmed content. -/
theorem c7_comment_length (s : DbState) (callerId photoId content newId : Str)
    (hx : (s.photos.find? (fun p => p.id == photoId)).isSome = true) :
    ((jsTrim content).length = 0 ∨ (jsTrim content).length > 500 →
      commentsPOST s callerId photoId content newId = (.invalidComment, s)) ∧
    (1 ≤ (jsTrim content).length → (jsTrim content).length ≤ 500 →
      commentsPOST s callerId photoId content newId =
        (.created (jsTrim content),
         { s with comments :=
            s.comments ++ [⟨newId, photoId, callerId, jsTrim content⟩] })) := by
  constructor
  · intro hbad
    unfold commentsPOST
    rw [if_pos hx]
    by_cases hemp : content.isEmpty = true
    · rw [if_pos hemp]
    · rw [if_neg hemp]
      rcases hbad with hz | hl
      · simp [hz]
      · have hnz : ¬ ((jsTrim content).length == 0) = true := by
          simp only [beq_iff_eq]
          omega
        simp only [hnz, Bool.false_eq_true, if_false, if_neg]
        rw [if_pos hl]
  · intro h1 h500
    have hemp : ¬ content.isEmpty = true := by
      intro he
      have : content = [] := List.isEmpty_iff.mp he
      rw [this] at h1
      simp [jsTrim] at h1
    unfold commentsPOST
    rw [if_pos hx, if_neg hemp]
    have hnz : ¬ ((jsTrim content).length == 0) = true := by
      simp only [beq_iff_eq]
      omega
    have hnl : ¬ (jsTrim content).length > 500 := by omega
    simp only [hnz, Bool.false_eq_true, if_false, if_neg, hnl]

/-- C7 witness: with an existing photo, a 501-character comment is rejected
and the state unchanged, while a 500-character comment (self-trimmed) is
created with exactly that content. -/
theorem c7_comment_length_witness :
    commentsPOST
        ⟨[⟨"p1".toList, "alice".toList, "/uploads/a.jpg".toList, 1, 2,
           AiStatus.pending, none, none⟩], [], ["/uploads/a.jpg".toList]⟩
        "bob".toList "p1".toList (List.replicate 501 'a') "c1".toList =
      (.invalidComment,
       ⟨[⟨"p1".toList, "alice".toList, "/uploads/a.jpg".toList, 1, 2,
          AiStatus.pending, none, none⟩], [], ["/uploads/a.jpg".toList]⟩) ∧
    commentsPOST
        ⟨[⟨"p1".toList, "alice".toList, "/uploads/a.jpg".toList, 1, 2,
           AiStatus.pending, none, none⟩], [], ["/uploads/a.jpg".toList]⟩
        "bob".toList "p1".toList (List.replicate 500 'a') "c1".toList =
      (.created (jsTrim (List.replicate 500 'a')),
       ⟨[⟨"p1".toList, "alice".toList, "/uploads/a.jpg".toList, 1, 2,
          AiStatus.pending, none, none⟩],
        [] ++ [⟨"c1".toList, "p1".toList, "bob".toList, jsTrim (List.replicate 500 'a')⟩],
        ["/uploads/a.jpg".toList]⟩) :=
  ⟨(c7_comment_length _ _ _ _ _ (by decide)).1 (Or.inr (by decide)),
   (c7_comment_length _ _ _ _ _ (by decide)).2 (by decide) (by decide)⟩

/-! ## Claim C4 -/

/-- C4: Delete and Regenerate share one ownership gate. Whenever no photo
row both has the requested id and is owned by the caller — the id is absent
altogether, or the row belongs to another user — both handlers return the
one `notFound` response (there is no distinguishable forbidden signal) and
leave the photos, comments, and blobs exactly as they were. Equivalently,
the operations can succeed only when a row with that id and `ownerId =
callerId` exists. -/
theorem c4_ownership_gate (s : DbState) (callerId photoId : Str)
    (h : ∀ p ∈ s.photos, p.id = photoId → p.ownerId ≠ callerId) :
    photoDELETE s callerId photoId = (DeleteResult.notFound, s) ∧
    regeneratePOST s callerId photoId = (RegenResponse.notFound, s, none) := by
  have hfind : findOwned s callerId photoId = none := by
    unfold findOwned
    rw [List.find?_eq_none]
    intro p hp
    simp only [Bool.and_eq_true, beq_iff_eq, not_and]
    exact fun h1 h2 => h p hp h1 h2
  constructor
  · unfold photoDELETE
    rw [hfind]
  · unfold regeneratePOST
    rw [hfind]

/-- C4 witness: a store holding one photo owned by alice, with a blob and a
comment; caller bob can neither delete nor regenerate it, the response is
`notFound`, and the store is untouched. -/
theorem c4_ownership_gate_witness :
    photoDELETE
        ⟨[⟨"p1".toList, "alice".toList, "/uploads/a.jpg".toList, 1, 2,
           AiStatus.done, some "d".toList, none⟩],
         [⟨"c1".toList, "p1".toList, "bob".toList, "hi".toList⟩],
         ["/uploads/a.jpg".toList]⟩ "bob".toList "p1".toList =
      (DeleteResult.notFound,
       ⟨[⟨"p1".toList, "alice".toList, "/uploads/a.jpg".toList, 1, 2,
          AiStatus.done, some "d".toList, none⟩],
        [⟨"c1".toList, "p1".toList, "bob".toList, "hi".toList⟩],
        ["/uploads/a.jpg".toList]⟩) ∧
    regeneratePOST
        ⟨[⟨"p1".toList, "alice".toList, "/uploads/a.jpg".toList, 1, 2,
           AiStatus.done, some "d".toList, none⟩],
         [⟨"c1".toList, "p1".toList, "bob".toList, "hi".toList⟩],
         ["/uploads/a.jpg".toList]⟩ "bob".toList "p1".toList =
      (RegenResponse.notFound,
       ⟨[⟨"p1".toList, "alice".toList, "/uploads/a.jpg".toList, 1, 2,
          AiStatus.done, some "d".toList, none⟩],
        [⟨"c1".toList, "p1".toList, "bob".toList, "hi".toList⟩],
        ["/uploads/a.jpg".toList]⟩, none) :=
  c4_ownership_gate _ _ _ (by decide)

/-! ## Claim C5 -/

/-- C5: a successful regenerate call (owned photo) responds `started` with
status PENDING, and in the state the handler itself produces — before the
dispatched enrichment's completion write, which is returned as a separate
unapplied task — the photo row already has `aiStatus = PENDING` with
`aiDescription` and `aiError` cleared to absent. -/
theorem c5_regenerate_resets (s : DbState) (callerId photoId : Str)
    (h : ∃ p ∈ s.photos, p.id = photoId ∧ p.ownerId = callerId) :
    (regeneratePOST s callerId photoId).1 = RegenResponse.started AiStatus.pending ∧
    (∀ q ∈ (regeneratePOST s callerId photoId).2.1.photos, q.id = photoId →
      q.aiStatus = AiStatus.pending ∧ q.aiDescription = none ∧ q.aiError = none) ∧
    (regeneratePOST s callerId photoId).2.2.isSome = true := by
  have hsome : (findOwned s callerId photoId).isSome = true := by
    unfold findOwned
    rw [List.find?_isSome]
    obtain ⟨p, hp, h1, h2⟩ := h
    exact ⟨p, hp, by simp [h1, h2]⟩
  obtain ⟨photo, hfind⟩ := Option.isSome_iff_exists.mp hsome
  unfold regeneratePOST
  rw [hfind]
  refine ⟨rfl, ?_, rfl⟩
  intro q hq hid
  obtain ⟨r, hr, hrq⟩ := List.mem_map.mp hq
  by_cases hb : (r.id == photoId) = true
  · rw [if_pos hb] at hrq
    subst hrq
    exact ⟨rfl, rfl, rfl⟩
  · rw [if_neg hb] at hrq
    subst hrq
    exact absurd (beq_iff_eq.mpr hid) hb

/-- C5 witness: alice regenerates her own photo; the response is PENDING,
the stored row is reset, and the enrichment task is dispatched. -/
theorem c5_regenerate_resets_witness :
    (regeneratePOST
        ⟨[⟨"p1".toList, "alice".toList, "/uploads/a.jpg".toList, 1, 2,
           AiStatus.error, none, some "boom".toList⟩], [], ["/uploads/a.jpg".toList]⟩
        "alice".toList "p1".toList).1 = RegenResponse.started AiStatus.pending ∧
    (∀ q ∈ (regeneratePOST
        ⟨[⟨"p1".toList, "alice".toList, "/uploads/a.jpg".toList, 1, 2,
           AiStatus.error, none, some "boom".toList⟩], [], ["/uploads/a.jpg".toList]⟩
        "alice".toList "p1".toList).2.1.photos, q.id = "p1".toList →
      q.aiStatus = AiStatus.pending ∧ q.aiDescription = none ∧ q.aiError = none) ∧
    (regeneratePOST
        ⟨[⟨"p1".toList, "alice".toList, "/uploads/a.jpg".toList, 1, 2,
           AiStatus.error, none, some "boom".toList⟩], [], ["/uploads/a.jpg".toList]⟩
        "alice".toList "p1".toList).2.2.isSome = true :=
  c5_regenerate_resets _ _ _ (by decide)

/-! ## Claim C1 -/

/-- C1 counterexample: the invariant fails under overlapping enrichments.
Trace: upload dispatches task 1; a regenerate overlaps it (reset, task 2
dispatched); task 1's success write lands (DONE with a description); then
task 2's failure write lands — and because the failure write does not clear
`aiDescription`, the reachable state has `aiStatus = ERROR` with BOTH
`aiDescription` and `aiError` set, refuting the claim's universally
quantified mutual-exclusion invariant. -/
theorem c1_mutex_counterexample :
    Reachable ⟨⟨AiStatus.error, some "d".toList, some "e".toList⟩, 0⟩ ∧
    ¬ (∀ s : EnrichState, Reachable s →
        (s.ai.aiDescription = none ∨ s.ai.aiError = none)) := by
  have hreach : Reachable ⟨⟨AiStatus.error, some "d".toList, some "e".toList⟩, 0⟩ := by
    have s1 : EnrichStep ⟨initialAi, 1⟩ ⟨resetAi initialAi, 2⟩ :=
      EnrichStep.regenerate initialAi 1
    have s2 : EnrichStep ⟨resetAi initialAi, 2⟩
        ⟨successUpdate "d".toList (resetAi initialAi), 1⟩ :=
      EnrichStep.success (resetAi initialAi) 1 "d".toList
    have s3 : EnrichStep ⟨successUpdate "d".toList (resetAi initialAi), 1⟩
        ⟨errorUpdate "e".toList (successUpdate "d".toList (resetAi initialAi)), 0⟩ :=
      EnrichStep.failure (successUpdate "d".toList (resetAi initialAi)) 0 "e".toList
    exact Relation.ReflTransGen.tail
      (Relation.ReflTransGen.tail
        (Relation.ReflTransGen.tail Relation.ReflTransGen.refl s1) s2) s3
  refine ⟨hreach, fun hall => ?_⟩
  have hbad := hall _ hreach
  simp at hbad

/-- Helper invariant for the sequential enrichment machine: at most one
task is ever in flight, an in-flight task implies the freshly reset row,
and the mutual-exclusion invariant holds. -/
theorem seqReachable_auxInv (s : EnrichState) (h : SeqReachable s) :
    s.inFlight ≤ 1 ∧ (s.inFlight = 1 → s.ai = initialAi) ∧ MutexInv s.ai := by
  induction h with
  | refl =>
    refine ⟨le_refl 1, fun _ => rfl, Or.inl rfl, fun hd => ?_, fun he => ?_⟩
    · exact absurd rfl hd
    · exact absurd rfl he
  | tail hab hbc ih =>
    cases hbc with
    | regenerate p =>
      refine ⟨le_refl 1, fun _ => rfl, Or.inl rfl, fun hd => ?_, fun he => ?_⟩
      · exact absurd rfl hd
      · exact absurd rfl he
    | success p n d =>
      obtain ⟨hle, hone, hmx⟩ := ih
      have hle' : n + 1 ≤ 1 := hle
      have hn : n = 0 := by omega
      subst hn
      refine ⟨Nat.zero_le 1, fun h0 => absurd h0.symm Nat.one_ne_zero,
        Or.inr rfl, fun _ => rfl, fun he => ?_⟩
      · exact absurd rfl he
    | failure p n e =>
      obtain ⟨hle, hone, hmx⟩ := ih
      have hle' : n + 1 ≤ 1 := hle
      have hn : n = 0 := by omega
      subst hn
      have hp : p = initialAi := hone rfl
      subst hp
      refine ⟨Nat.zero_le 1, fun h0 => absurd h0.symm Nat.one_ne_zero,
        Or.inl rfl, fun hd => ?_, fun _ => rfl⟩
      · exact absurd rfl hd

/-- C1 (amended): in every execution in which enrichment attempts never
overlap — each upload or regenerate dispatch's completion write lands
before the next regenerate is issued, which `SeqReachable` captures by
allowing a regenerate only with no task in flight — every reachable state
satisfies the invariant: `aiDescription` and `aiError` are never both set,
`aiDescription` is present only when `aiStatus = DONE`, and `aiError` only
when `aiStatus = ERROR`. With overlapping attempts the invariant fails (see
the counterexample), because the failure completion write does not clear
`aiDescription`. -/
theorem c1_seq_mutex_invariant (s : EnrichState) (h : SeqReachable s) :
    MutexInv s.ai :=
  (seqReachable_auxInv s h).2.2

/-- C1 witness: the state reached by upload followed by a successful
completion satisfies the invariant. -/
theorem c1_seq_mutex_invariant_witness :
    MutexInv ⟨AiStatus.done, some "d".toList, none⟩ :=
  c1_seq_mutex_invariant ⟨⟨AiStatus.done, some "d".toList, none⟩, 0⟩
    (Relation.ReflTransGen.tail Relation.ReflTransGen.refl
      (SeqEnrichStep.success initialAi 0 "d".toList))
